import Mathlib

/-!
Verification development for the PolyVisor platform.

Shallow embedding of the verifiable-metric pipeline:
* `src/zkproof/src/circuits.rs` — circuit descriptors, constraint checking,
  cost estimation, circuit selection;
* `src/zkproof/src/lib.rs` — submission validation, cache keys, proof
  generation with caching;
* `src/backend/src/services/zkproof_service.rs` — async proof-generation
  service (submit / background task / status query);
* `src/backend/src/services/health_service.rs` — weighted network-health
  scoring (the Rust code computes the weighted sum in `f64` and casts with
  `as u8`; the embedding models the IEEE-754 double-precision evaluation
  exactly, representing every intermediate double as an integer numerator
  over 2^55);
* `src/contracts/analytics/lib.rs` — the ink! analytics contract
  (submission gating, privacy filter, contributor reputation).

Machine integers are modelled as `Nat`; the Rust fields involved are `u8`,
`u32`, `u64`, `u128` and all operations proved about stay within range, with
saturating subtraction matching `Nat` subtraction.  SHA-256 is abstracted:
the byte stream fed to the hasher is modelled precisely as a list of
`HashPiece`s in the source's update order, and the digest function is a
parameter.
-/

namespace PolyVisor

/-! ### Circuits (`src/zkproof/src/circuits.rs`) -/

/-- Circuit type enum (`CircuitType`). -/
inductive CircuitType
  | NetworkMetric
  | DataIntegrity
  | AggregationProof
  | PrivacyPreserving
deriving DecidableEq, Repr

/-- Circuit descriptor (`NetworkMetricCircuit`). -/
structure NetworkMetricCircuit where
  circuit_id : Nat
  circuit_type : CircuitType
  max_data_points : Nat
  max_data_sources : Nat
  description : String
deriving DecidableEq, Repr

/-- Source `NetworkMetricCircuit::verify_constraints` (circuits.rs lines 51-95).
`Nat.dist` models `u128::abs_diff`; `/` is integer division as in Rust.  The
source sums the readings with `sum::<u128>()` and the reliabilities with
`sum::<u32>()`, which wrap on overflow (release semantics), so the sums are
reduced modulo 2^128 and 2^32 respectively.  `avg_reliability + 10` cannot
wrap: it is only computed once at least two sources passed, so the average
is below 2^31. -/
def NetworkMetricCircuit.verify_constraints (c : NetworkMetricCircuit)
    (private_data : List Nat) (data_sources : List Nat)
    (public_metric : Nat) (quality_score : Nat) : Bool :=
  if private_data.length > c.max_data_points then false
  else if data_sources.length > c.max_data_sources then false
  else if data_sources.length < 2 then false
  else if private_data ≠ [] ∧
      Nat.dist (private_data.sum % 2 ^ 128 / private_data.length) public_metric >
        public_metric / 20 then false
  else if quality_score > 100 then false
  else if quality_score > data_sources.sum % 2 ^ 32 / data_sources.length + 10 then false
  else true

/-- Source `NetworkMetricCircuit::estimate_constraint_count`. -/
def NetworkMetricCircuit.estimate_constraint_count (_c : NetworkMetricCircuit)
    (data_points sources : Nat) : Nat :=
  50 + data_points * 5 + sources * 3 + 20

/-- Source `NetworkMetricCircuit::estimate_witness_count`. -/
def NetworkMetricCircuit.estimate_witness_count (_c : NetworkMetricCircuit)
    (data_points sources : Nat) : Nat :=
  data_points + sources * 2 + (data_points + sources + 10)

/-- Circuit complexity record (`CircuitComplexity`). -/
structure CircuitComplexity where
  constraint_count : Nat
  witness_count : Nat
  estimated_generation_time_ms : Nat
  estimated_verification_time_ms : Nat
  memory_usage_mb : Nat
deriving DecidableEq, Repr

/-- Source `NetworkMetricCircuit::estimate_complexity`. -/
def NetworkMetricCircuit.estimate_complexity (c : NetworkMetricCircuit)
    (data_points sources : Nat) : CircuitComplexity :=
  let constraint_count := c.estimate_constraint_count data_points sources
  let witness_count := c.estimate_witness_count data_points sources
  { constraint_count := constraint_count
    witness_count := witness_count
    estimated_generation_time_ms := constraint_count / 1000 + witness_count / 500
    estimated_verification_time_ms := constraint_count / 5000 + 10
    memory_usage_mb := (constraint_count + witness_count) / 10000 }

/-- Rust `Iterator::min_by_key` semantics: the first minimal element. -/
def minByKeyFirst (f : α → Nat) : List α → Option α
  | [] => none
  | x :: xs =>
    match minByKeyFirst f xs with
    | none => some x
    | some y => if f y < f x then some y else some x

/-- Source `CircuitManager::select_optimal_circuit` for the `NetworkMetric` type.
`circuits` is the registration-ordered list the manager stores for the type
(in `type_mapping`, ids are pushed in registration order and looked up in
that order). -/
def CircuitManager.select_optimal_circuit (circuits : List NetworkMetricCircuit)
    (data_points sources : Nat) : Option NetworkMetricCircuit :=
  minByKeyFirst
    (fun c => (c.estimate_complexity data_points sources).estimated_generation_time_ms)
    (circuits.filter
      (fun c => decide (c.max_data_points ≥ data_points) &&
        decide (c.max_data_sources ≥ sources)))

/-- The small default circuit (id 1) registered by
`CircuitManager::register_default_circuits`. -/
def smallCircuit : NetworkMetricCircuit :=
  ⟨1, .NetworkMetric, 10, 5, "小型网络指标电路，适用于少量数据点和数据源"⟩

/-- The medium default circuit (id 2). -/
def mediumCircuit : NetworkMetricCircuit :=
  ⟨2, .NetworkMetric, 50, 20, "中型网络指标电路，适用于中等规模数据"⟩

/-- The large default circuit (id 3). -/
def largeCircuit : NetworkMetricCircuit :=
  ⟨3, .NetworkMetric, 200, 100, "大型网络指标电路，适用于大规模数据聚合"⟩

/-- The default catalog, in registration order (`register_default_circuits`). -/
def defaultCircuits : List NetworkMetricCircuit :=
  [smallCircuit, mediumCircuit, largeCircuit]

/-! ### Proof service (`src/zkproof/src/lib.rs`) -/

/-- Data source type enum (`DataSourceType`). -/
inductive DataSourceType
  | ValidatorNode
  | FullNode
  | LightNode
  | Parachain
  | RelayChain
  | ExternalOracle
deriving DecidableEq, Repr

/-- Data source record (`DataSource`). -/
structure DataSource where
  source_type : DataSourceType
  source_id : String
  timestamp : Nat
  reliability_score : Nat
deriving DecidableEq, Repr

/-- Metric submission (`MetricSubmission`). -/
structure MetricSubmission where
  metric_type : String
  private_data : List Nat
  data_sources : List DataSource
  public_metric : Nat
  quality_score : Nat
  time_window_hours : Nat
deriving DecidableEq, Repr

/-- Proof artifact (`ZKProof` in the zkproof crate); byte vectors are lists
of byte values. -/
structure ZKProof where
  proof_value : List Nat
  public_inputs : List Nat
  verification_key : List Nat
  circuit_id : Nat
  created_at : Nat
deriving DecidableEq, Repr

/-- Proof metadata (`ProofMetadata`); durations in milliseconds. -/
structure ProofMetadata where
  circuit_type : CircuitType
  generation_time_ms : Nat
  verification_time_ms : Option Nat
  data_sources_count : Nat
  quality_threshold : Nat
  data_age : Nat
deriving DecidableEq, Repr

/-- Source `ZKProofService::validate_submission` (lib.rs lines 243-272): the five
checks in source order, failing fast with the first violation's message. -/
def ZKProofService.validate_submission (s : MetricSubmission) : Except String Unit :=
  if s.private_data = [] then .error "Private data cannot be empty"
  else if s.data_sources.length < 2 then .error "At least 2 data sources required"
  else if s.quality_score > 100 then .error "Quality score must be <= 100"
  else if s.time_window_hours = 0 ∨ s.time_window_hours > 24 then
    .error "Time window must be between 1-24 hours"
  else if s.data_sources.any (fun src => decide (src.reliability_score > 100)) then
    .error "Source reliability score must be <= 100"
  else .ok ()

/-- One item fed to a SHA-256 hasher: either a string's bytes or an
integer's big-endian bytes. -/
inductive HashPiece
  | str (s : String)
  | nat (n : Nat)
deriving DecidableEq, Repr

/-- The exact update sequence `ZKProofService::generate_cache_key` feeds to
its SHA-256 hasher (lib.rs lines 289-311): metric type, each raw reading in
order, the aggregate, the quality score, the window, then each source's id
and reliability. -/
def cacheKeyStream (s : MetricSubmission) : List HashPiece :=
  HashPiece.str s.metric_type ::
    (s.private_data.map HashPiece.nat ++
      [HashPiece.nat s.public_metric, HashPiece.nat s.quality_score,
        HashPiece.nat s.time_window_hours] ++
      s.data_sources.flatMap
        (fun src => [HashPiece.str src.source_id, HashPiece.nat src.reliability_score]))

/-- Source `ZKProofService::generate_cache_key`, the digest abstracted as the
parameter `hash` (the source hex-encodes a SHA-256 digest). -/
def ZKProofService.generate_cache_key (hash : List HashPiece → String)
    (s : MetricSubmission) : String :=
  hash (cacheKeyStream s)

/-- The update sequence `ZKProofService::calculate_circuit_id` feeds to its
SHA-256 hasher (lib.rs lines 274-286): metric type, reading count, source
count, window. -/
def circuitIdStream (s : MetricSubmission) : List HashPiece :=
  [HashPiece.str s.metric_type, HashPiece.nat s.private_data.length,
    HashPiece.nat s.data_sources.length, HashPiece.nat s.time_window_hours]

/-- Source `ZKProofService::calculate_circuit_id`, the digest-to-`u32` step
abstracted as the parameter `idHash`. -/
def ZKProofService.calculate_circuit_id (idHash : List HashPiece → Nat)
    (s : MetricSubmission) : Nat :=
  idHash (circuitIdStream s)

/-- Source `ZKProofService::calculate_data_age` (lib.rs lines 314-326); `Nat`
subtraction matches `u64::saturating_sub`. -/
def ZKProofService.calculate_data_age (now : Nat) (data_sources : List DataSource) : Nat :=
  if data_sources = [] then 0
  else (data_sources.map (fun src => now - src.timestamp)).sum / data_sources.length

/-- The proving backend's interface as invoked at lib.rs lines 141-148:
private readings, source reliabilities, aggregate, quality score, window,
circuit id.  (The `ZKProver` in prover.rs does not match this call site —
the crate's own `generate_proof` has a different arity — so the backend is
kept as a parameter, as the spec also treats it as pluggable.) -/
abbrev Prover :=
  List Nat → List Nat → Nat → Nat → Nat → Nat → Except String ZKProof

/-- Source `ZKProofService::generate_metric_proof` (lib.rs lines 115-166).  The
mutable service is modelled by threading the proof cache (an association
list keyed by cache key); `now` models `chrono::Utc::now`, `elapsed_ms` the
measured generation time recorded on a cache miss.  Return value carries the
proof, its metadata, and the updated cache. -/
def ZKProofService.generate_metric_proof (hash : List HashPiece → String)
    (idHash : List HashPiece → Nat) (prover : Prover) (now elapsed_ms : Nat)
    (proof_cache : List (String × ZKProof)) (s : MetricSubmission) :
    Except String (ZKProof × ProofMetadata × List (String × ZKProof)) :=
  match ZKProofService.validate_submission s with
  | .error e => .error e
  | .ok _ =>
    let circuit_id := ZKProofService.calculate_circuit_id idHash s
    let cache_key := ZKProofService.generate_cache_key hash s
    match proof_cache.lookup cache_key with
    | some cached_proof =>
      .ok (cached_proof,
        { circuit_type := .NetworkMetric
          generation_time_ms := 0
          verification_time_ms := none
          data_sources_count := s.data_sources.length
          quality_threshold := s.quality_score
          data_age := ZKProofService.calculate_data_age now s.data_sources },
        proof_cache)
    | none =>
      match prover s.private_data (s.data_sources.map (fun src => src.reliability_score))
          s.public_metric s.quality_score s.time_window_hours circuit_id with
      | .error e => .error e
      | .ok proof =>
        .ok (proof,
          { circuit_type := .NetworkMetric
            generation_time_ms := elapsed_ms
            verification_time_ms := none
            data_sources_count := s.data_sources.length
            quality_threshold := s.quality_score
            data_age := ZKProofService.calculate_data_age now s.data_sources },
          (cache_key, proof) :: proof_cache)

/-! ### Backend proof service (`src/backend/src/services/zkproof_service.rs`) -/

/-- Proof lifecycle status (`ProofGenerationStatus` in api/proofs.rs). -/
inductive ProofGenerationStatus
  | Pending
  | Processing
  | Completed
  | Failed
  | Expired
deriving DecidableEq, Repr

/-- Backend proof metadata (`ProofMetadata` in api/proofs.rs). -/
structure BackendProofMetadata where
  algorithm : String
  security_parameter : Nat
  proof_size : Nat
  generation_time_ms : Nat
  verification_time_ms : Nat
  privacy_guarantee : String
deriving DecidableEq, Repr

/-- Proof payload (`ZKProofData` in api/proofs.rs). -/
structure ZKProofData where
  proof : String
  public_inputs : List String
  verification_key : String
  metadata : BackendProofMetadata
deriving DecidableEq, Repr

/-- Proof handle (`ProofGenerationResponse` in api/proofs.rs); timestamps in
seconds. -/
structure ProofGenerationResponse where
  proof_id : String
  status : ProofGenerationStatus
  proof_data : Option ZKProofData
  estimated_completion : Option Nat
  created_at : Nat
deriving DecidableEq, Repr

/-- The service's shared mutable maps (`pending_proofs` and
`verification_cache` behind `tokio::sync::RwLock`), as association lists. -/
structure BackendServiceState where
  pending_proofs : List (String × ProofGenerationResponse)
  verification_cache : List (String × Bool)
deriving DecidableEq, Repr

/-- Source `impl Clone for ZKProofService` (zkproof_service.rs lines 217-226): the
clone gets fresh, EMPTY locks — it shares the database and config handles
but none of the pending-proof or verification state. -/
def BackendServiceState.cloneService (_st : BackendServiceState) : BackendServiceState :=
  { pending_proofs := [], verification_cache := [] }

/-- Source `ZKProofService::generate_proof` (zkproof_service.rs lines 35-68):
build a `Pending` response, insert it into `pending_proofs`, then spawn the
background task on `Arc::new(self.clone())`.  Returns the response, the
caller-visible service state after the insert, and the state the spawned
task will operate on (the clone). -/
def backendGenerateProof (now : Nat) (proof_id : String) (st : BackendServiceState) :
    ProofGenerationResponse × BackendServiceState × BackendServiceState :=
  let response : ProofGenerationResponse :=
    { proof_id := proof_id
      status := .Pending
      proof_data := none
      estimated_completion := some (now + 10)
      created_at := now }
  let st' := { st with pending_proofs := (proof_id, response) :: st.pending_proofs }
  (response, st', st'.cloneService)

/-- Update the entry for a key if present (`HashMap::get_mut` followed by
field assignments); absent keys leave the map unchanged. -/
def updateEntry (proof_id : String) (f : ProofGenerationResponse → ProofGenerationResponse) :
    List (String × ProofGenerationResponse) → List (String × ProofGenerationResponse) :=
  List.map (fun kv => if kv.1 = proof_id then (kv.1, f kv.2) else kv)

/-- The proof data built by `ZKProofService::process_proof_generation`
(zkproof_service.rs lines 79-91). -/
def processProofData (proof_id : String) : ZKProofData :=
  { proof := "zkp_" ++ proof_id ++ "_proof"
    public_inputs := ["public_input_1"]
    verification_key := "vk_" ++ proof_id
    metadata :=
      { algorithm := "PLONK"
        security_parameter := 128
        proof_size := 256
        generation_time_ms := 3000
        verification_time_ms := 50
        privacy_guarantee := "零知识证明" } }

/-- Source `ZKProofService::process_proof_generation` (zkproof_service.rs lines
71-103): after the simulated work, mark the entry `Completed` with the
proof data — in the map of the state it was spawned with. -/
def processProofGeneration (proof_id : String) (st : BackendServiceState) :
    BackendServiceState :=
  { st with
    pending_proofs :=
      updateEntry proof_id
        (fun r => { r with status := .Completed, proof_data := some (processProofData proof_id) })
        st.pending_proofs }

/-- Source `ZKProofService::get_proof_status` (zkproof_service.rs lines 135-142). -/
def getProofStatus (st : BackendServiceState) (proof_id : String) :
    Except String ProofGenerationResponse :=
  match st.pending_proofs.lookup proof_id with
  | some response => .ok response
  | none => .error ("proof not found: " ++ proof_id)

/-! ### Analytics contract (`src/contracts/analytics/lib.rs`) -/

/-- Account ids are 32-byte values (`AccountId`), as byte lists. -/
abbrev AccountId := List Nat

/-- Source `AccountId::from([0u8; 32])`, the anonymized source node. -/
def zeroAccount : AccountId := List.replicate 32 0

/-- Metric type enum (`MetricType`). -/
inductive MetricType
  | AverageBlockTime
  | TransactionVolume
  | ValidatorUptime
  | NetworkCongestion
  | ChainActivity
  | GasUsage
  | NetworkLatency
deriving DecidableEq, Repr

/-- Privacy tier enum (`PrivacyLevel`). -/
inductive PrivacyLevel
  | Maximum
  | High
  | Medium
  | Low
  | Minimal
deriving DecidableEq, Repr

/-- Stored metric value (`MetricValue`). -/
structure MetricValue where
  value : Nat
  timestamp : Nat
  proof_id : Nat
  privacy_level : PrivacyLevel
  data_quality_score : Nat
  source_node : AccountId
deriving DecidableEq, Repr

/-- On-chain proof record (`ZKProof` in the contract). -/
structure ContractZKProof where
  proof_value : List Nat
  public_inputs : List Nat
  verification_key : List Nat
  circuit_id : Nat
deriving DecidableEq, Repr

/-- Contributor record (`ContributorInfo`). -/
structure ContributorInfo where
  total_contributions : Nat
  data_quality_average : Nat
  last_contribution : Nat
  reputation_score : Nat
  verification_count : Nat
deriving DecidableEq, Repr

/-- Contract error enum (`AnalyticsError`). -/
inductive AnalyticsError
  | InvalidProof
  | UnauthorizedNode
  | InvalidMetricType
  | InsufficientDataSources
  | DataQualityTooLow
  | NodeNotRegistered
  | InsufficientPermission
deriving DecidableEq, Repr

/-- Source `MetricSubmitted` event payload. -/
structure MetricSubmittedEvent where
  metric_type : MetricType
  value : Nat
  quality_score : Nat
  contributor : AccountId
  timestamp : Nat
deriving DecidableEq, Repr

/-- Contract storage (`Analytics`); `Mapping`s as association lists where
insertion conses and `lookup` takes the first (most recent) binding. -/
structure AnalyticsState where
  metrics : List (MetricType × MetricValue)
  proofs : List (Nat × ContractZKProof)
  privacy_levels : List (AccountId × PrivacyLevel)
  trusted_nodes : List AccountId
  contributors : List (AccountId × ContributorInfo)
  owner : AccountId
deriving DecidableEq, Repr

/-- Source `Analytics::verify_proof` (lib.rs lines 383-402): format check, then
first public input must match the claimed value. -/
def contractVerifyProof (proof : ContractZKProof) (_metric_type : MetricType)
    (value : Nat) : Bool :=
  if proof.proof_value = [] ∨ proof.public_inputs = [] then false
  else if proof.public_inputs.length > 0 ∧ proof.public_inputs.headI ≠ value then false
  else true

/-- Source `Analytics::update_contributor_info` (lib.rs lines 405-424): the
existing branch increments `total_contributions` first, then recomputes the
running average with the incremented count. -/
def updateContributorInfo (now : Nat) (existing : Option ContributorInfo)
    (quality_score : Nat) : ContributorInfo :=
  match existing with
  | some info =>
    let total := info.total_contributions + 1
    { total_contributions := total
      data_quality_average :=
        (info.data_quality_average * (total - 1) + quality_score) / total
      last_contribution := now
      reputation_score := info.reputation_score + quality_score
      verification_count := info.verification_count }
  | none =>
    { total_contributions := 1
      data_quality_average := quality_score
      last_contribution := now
      reputation_score := quality_score
      verification_count := 0 }

/-- Source `Analytics::apply_privacy_filter` (lib.rs lines 427-468). -/
def applyPrivacyFilter (metric : MetricValue) (privacy_level : PrivacyLevel) :
    MetricValue :=
  match privacy_level with
  | .Maximum =>
    { metric with
      value := metric.value / 1000 * 1000
      data_quality_score := 0
      source_node := zeroAccount }
  | .High =>
    { metric with
      value := metric.value / 100 * 100
      data_quality_score := metric.data_quality_score / 10 * 10
      source_node := zeroAccount }
  | .Medium =>
    { metric with
      value := metric.value / 10 * 10
      source_node := zeroAccount }
  | .Low =>
    { metric with source_node := zeroAccount }
  | .Minimal => metric

/-- Source `Analytics::submit_metric` (lib.rs lines 192-251), with the caller and
block timestamp as explicit environment.  Returns the call result, the
storage after the call, and the emitted events. -/
def submitMetric (caller : AccountId) (block_timestamp : Nat) (st : AnalyticsState)
    (metric_type : MetricType) (value : Nat) (proof : ContractZKProof)
    (data_quality_score : Nat) :
    Except AnalyticsError Unit × AnalyticsState × List MetricSubmittedEvent :=
  if caller ∉ st.trusted_nodes then (.error .UnauthorizedNode, st, [])
  else if data_quality_score < 70 then (.error .DataQualityTooLow, st, [])
  else if ¬ contractVerifyProof proof metric_type value then (.error .InvalidProof, st, [])
  else
    let privacy_level := (st.privacy_levels.lookup caller).getD .High
    let proof_id := block_timestamp
    let metric_value : MetricValue :=
      { value := value
        timestamp := block_timestamp
        proof_id := proof_id
        privacy_level := privacy_level
        data_quality_score := data_quality_score
        source_node := caller }
    let st' :=
      { st with
        proofs := (proof_id, proof) :: st.proofs
        metrics := (metric_type, metric_value) :: st.metrics
        contributors :=
          (caller,
            updateContributorInfo block_timestamp (st.contributors.lookup caller)
              data_quality_score) :: st.contributors }
    (.ok (),
      st',
      [{ metric_type := metric_type
         value := value
         quality_score := data_quality_score
         contributor := caller
         timestamp := block_timestamp }])

/-! ### Health service (`src/backend/src/services/health_service.rs`)

`calculate_network_health` computes
`(c as f64 * 0.25) + (t as f64 * 0.20) + (l as f64 * 0.20) + (s as f64 * 0.20)
 + (a as f64 * 0.15)` and casts the result with `as u8` (truncation toward
zero, saturating at 255).  We model the IEEE-754 binary64 evaluation
exactly: every double occurring in this computation is a nonnegative
multiple of 2^-55 below 2^8, so it is represented by its numerator over
2^55, and each multiplication / addition is followed by rounding to nearest,
ties to even, at 53 significand bits. -/

/-- Floor of log base 2, fuel-driven so it reduces structurally; correct
for `n < 2 ^ fuel`. -/
def log2fuel : Nat → Nat → Nat
  | 0, _ => 0
  | fuel + 1, n => if 2 ≤ n then log2fuel fuel (n / 2) + 1 else 0

/-- Floor of log base 2 for the numerators at hand (all below 2^64). -/
def lg64 (n : Nat) : Nat := log2fuel 64 n

/-- Round `n / 2^55` to the nearest IEEE-754 binary64 value (round to
nearest, ties to even), returning the result's numerator over 2^55.
Numerators with at most 53 bits are exact; otherwise the trailing
`lg64 n - 52` bits are rounded away. -/
def rnF64 (n : Nat) : Nat :=
  if n = 0 then 0
  else
    let L := lg64 n
    if L ≤ 52 then n
    else
      let s := L - 52
      let q := n / 2 ^ s
      let r := n % 2 ^ s
      let h := 2 ^ (s - 1)
      let q' := if h < r then q + 1 else if r < h then q else q + q % 2
      q' * 2 ^ s

/-- Numerator over 2^55 of the binary64 value nearest 0.20 (the literal
`0.20_f64`). -/
def w20num : Nat := 7205759403792794

/-- Numerator over 2^55 of the binary64 value nearest 0.15 (the literal
`0.15_f64`). -/
def w15num : Nat := 5404319552844595

/-- Numerator over 2^55 of the final double computed by the weighted sum in
`calculate_network_health` (health_service.rs lines 118-122): five
multiplications then four left-associated additions, each rounded. -/
def overallScoreNum (c t l s a : Nat) : Nat :=
  let p1 := rnF64 (c * 2 ^ 53)
  let p2 := rnF64 (t * w20num)
  let p3 := rnF64 (l * w20num)
  let p4 := rnF64 (s * w20num)
  let p5 := rnF64 (a * w15num)
  rnF64 (rnF64 (rnF64 (rnF64 (p1 + p2) + p3) + p4) + p5)

/-- The `as u8` cast of the weighted sum: truncation toward zero (numerator
divided by 2^55), saturating at 255. -/
def overallScore (c t l s a : Nat) : Nat :=
  min (overallScoreNum c t l s a / 2 ^ 55) 255

/-- Network status enum (`NetworkStatus` in api/health.rs). -/
inductive NetworkStatus
  | Healthy
  | Warning
  | Critical
  | Unknown
deriving DecidableEq, Repr

/-- Warning severity enum (`WarningLevel` in api/health.rs). -/
inductive WarningLevel
  | Info
  | Warning
  | Critical
deriving DecidableEq, Repr

/-- Health warning record (`HealthWarning` in api/health.rs). -/
structure HealthWarning where
  level : WarningLevel
  message : String
  component : String
  recommendation : Option String
  timestamp : Nat
deriving DecidableEq, Repr

/-- Component scores (`HealthMetrics` in api/health.rs). -/
structure HealthMetrics where
  connectivity_score : Nat
  throughput_score : Nat
  latency_score : Nat
  consensus_score : Nat
  availability_score : Nat
deriving DecidableEq, Repr

/-- Trend deltas (`HealthTrends`); `calculate_health_trends` returns the
fixed stub values 5, 2, -1. -/
structure HealthTrends where
  daily_trend : Int
  weekly_trend : Int
  monthly_trend : Int
deriving DecidableEq, Repr

/-- Health response (`HealthResponse` in api/health.rs). -/
structure HealthResponse where
  overall_score : Nat
  network_status : NetworkStatus
  metrics : HealthMetrics
  trends : HealthTrends
  warnings : List HealthWarning
  last_updated : Nat
deriving DecidableEq, Repr

/-- The status match in `calculate_network_health` (lines 125-130):
`90..=100 => Healthy`, `70..=89 => Warning`, `0..=69 => Critical`,
otherwise `Unknown`. -/
def networkStatusOf (score : Nat) : NetworkStatus :=
  if 90 ≤ score ∧ score ≤ 100 then .Healthy
  else if 70 ≤ score ∧ score ≤ 89 then .Warning
  else if score ≤ 69 then .Critical
  else .Unknown

/-- Source `HealthService::generate_health_warnings` (lines 209-239): one
Critical-level warning when Critical, one Warning-level warning when
Warning, none otherwise. -/
def generateHealthWarnings (status : NetworkStatus) (score : Nat) (now : Nat) :
    List HealthWarning :=
  match status with
  | .Critical =>
    [{ level := .Critical
       message := "网络健康评分过低: " ++ toString score ++ "/100"
       component := "network"
       recommendation := some "立即检查网络连接和节点状态"
       timestamp := now }]
  | .Warning =>
    [{ level := .Warning
       message := "网络健康状况需要关注: " ++ toString score ++ "/100"
       component := "network"
       recommendation := some "建议检查网络性能指标"
       timestamp := now }]
  | _ => []

/-- Source `HealthService::calculate_network_health` (lines 107-152), parameterized
by the five component scores (the component calculators are stubs returning
constants; the aggregation below is what they feed). -/
def calculateNetworkHealth (now : Nat) (m : HealthMetrics) : HealthResponse :=
  let overall := overallScore m.connectivity_score m.throughput_score
    m.latency_score m.consensus_score m.availability_score
  let status := networkStatusOf overall
  { overall_score := overall
    network_status := status
    metrics := m
    trends := { daily_trend := 5, weekly_trend := 2, monthly_trend := -1 }
    warnings := generateHealthWarnings status overall now
    last_updated := now }

/-! ### Theorems -/

/-- Decidable equality for `Except`, used to evaluate the embedded
functions on concrete inputs. -/
instance {ε α : Type} [DecidableEq ε] [DecidableEq α] : DecidableEq (Except ε α)
  | .ok a, .ok b =>
    if h : a = b then .isTrue (by rw [h]) else .isFalse (by intro hab; cases hab; exact h rfl)
  | .error a, .error b =>
    if h : a = b then .isTrue (by rw [h]) else .isFalse (by intro hab; cases hab; exact h rfl)
  | .ok _, .error _ => .isFalse (by intro h; cases h)
  | .error _, .ok _ => .isFalse (by intro h; cases h)

/-- C6: the first accepted submission creates a record with one
contribution, average and reputation equal to the quality score; a later
submission on a record with `n` prior contributions sets the average to
`(old_avg * n + quality) / (n + 1)` (integer division), increments the
contribution count, and adds the quality score to the reputation score, so
the reputation score never decreases; the quality sequence `[80, 90, 100]`
yields averages 80, 85, 90 and final reputation 270. -/
theorem reputation_update_spec :
    (∀ now q, updateContributorInfo now none q =
      { total_contributions := 1, data_quality_average := q, last_contribution := now,
        reputation_score := q, verification_count := 0 }) ∧
    (∀ now info q, updateContributorInfo now (some info) q =
      { total_contributions := info.total_contributions + 1
        data_quality_average :=
          (info.data_quality_average * info.total_contributions + q) /
            (info.total_contributions + 1)
        last_contribution := now
        reputation_score := info.reputation_score + q
        verification_count := info.verification_count }) ∧
    (∀ now info q,
      info.reputation_score ≤ (updateContributorInfo now (some info) q).reputation_score) ∧
    (updateContributorInfo 0 none 80).data_quality_average = 80 ∧
    (updateContributorInfo 1 (some (updateContributorInfo 0 none 80)) 90).data_quality_average
      = 85 ∧
    (updateContributorInfo 2 (some (updateContributorInfo 1
      (some (updateContributorInfo 0 none 80)) 90)) 100).data_quality_average = 90 ∧
    (updateContributorInfo 2 (some (updateContributorInfo 1
      (some (updateContributorInfo 0 none 80)) 90)) 100).reputation_score = 270 ∧
    (updateContributorInfo 2 (some (updateContributorInfo 1
      (some (updateContributorInfo 0 none 80)) 90)) 100).total_contributions = 3 := by
  refine ⟨fun now q => rfl, fun now info q => ?_, fun now info q => Nat.le_add_right _ _,
    by decide, by decide, by decide, by decide, by decide⟩
  simp [updateContributorInfo]

/-- C7: the privacy filter floors the value to a multiple of 1000 / 100 /
10 at Maximum / High / Medium, zeroes the quality score at Maximum and
floors it to a multiple of 10 at High, anonymizes the source at every tier
except Minimal, and returns the metric unchanged at Minimal. -/
theorem privacy_filter_spec : ∀ m : MetricValue,
    applyPrivacyFilter m .Maximum =
      { m with
        value := m.value / 1000 * 1000
        data_quality_score := 0
        source_node := zeroAccount } ∧
    1000 ∣ (applyPrivacyFilter m .Maximum).value ∧
    (applyPrivacyFilter m .Maximum).value ≤ m.value ∧
    m.value < (applyPrivacyFilter m .Maximum).value + 1000 ∧
    applyPrivacyFilter m .High =
      { m with
        value := m.value / 100 * 100
        data_quality_score := m.data_quality_score / 10 * 10
        source_node := zeroAccount } ∧
    100 ∣ (applyPrivacyFilter m .High).value ∧
    (applyPrivacyFilter m .High).value ≤ m.value ∧
    m.value < (applyPrivacyFilter m .High).value + 100 ∧
    10 ∣ (applyPrivacyFilter m .High).data_quality_score ∧
    (applyPrivacyFilter m .High).data_quality_score ≤ m.data_quality_score ∧
    m.data_quality_score < (applyPrivacyFilter m .High).data_quality_score + 10 ∧
    applyPrivacyFilter m .Medium =
      { m with value := m.value / 10 * 10, source_node := zeroAccount } ∧
    10 ∣ (applyPrivacyFilter m .Medium).value ∧
    (applyPrivacyFilter m .Medium).value ≤ m.value ∧
    m.value < (applyPrivacyFilter m .Medium).value + 10 ∧
    (applyPrivacyFilter m .Medium).data_quality_score = m.data_quality_score ∧
    applyPrivacyFilter m .Low = { m with source_node := zeroAccount } ∧
    (applyPrivacyFilter m .Low).value = m.value ∧
    (applyPrivacyFilter m .Low).data_quality_score = m.data_quality_score ∧
    applyPrivacyFilter m .Minimal = m := by
  intro m
  have h1000 := Nat.div_add_mod m.value 1000
  have hm1000 : m.value % 1000 < 1000 := Nat.mod_lt _ (by norm_num)
  have h100 := Nat.div_add_mod m.value 100
  have hm100 : m.value % 100 < 100 := Nat.mod_lt _ (by norm_num)
  have h10 := Nat.div_add_mod m.value 10
  have hm10 : m.value % 10 < 10 := Nat.mod_lt _ (by norm_num)
  have hq10 := Nat.div_add_mod m.data_quality_score 10
  have hqm10 : m.data_quality_score % 10 < 10 := Nat.mod_lt _ (by norm_num)
  refine ⟨rfl, ⟨m.value / 1000, (Nat.mul_comm _ _)⟩, Nat.div_mul_le_self _ _,
    (by omega : m.value < m.value / 1000 * 1000 + 1000),
    rfl, ⟨m.value / 100, (Nat.mul_comm _ _)⟩, Nat.div_mul_le_self _ _,
    (by omega : m.value < m.value / 100 * 100 + 100),
    ⟨m.data_quality_score / 10, (Nat.mul_comm _ _)⟩, Nat.div_mul_le_self _ _,
    (by omega : m.data_quality_score < m.data_quality_score / 10 * 10 + 10),
    rfl, ⟨m.value / 10, (Nat.mul_comm _ _)⟩, Nat.div_mul_le_self _ _,
    (by omega : m.value < m.value / 10 * 10 + 10),
    rfl, rfl, rfl, rfl, rfl⟩

/-- A well-formed boundary submission used for the validation-boundary
checks: four readings, two sources with reliabilities 95 and 87, aggregate
6050, and the given quality score and window. -/
def boundarySubmission (quality window : Nat) : MetricSubmission :=
  { metric_type := "block_time"
    private_data := [6000, 6100, 5900, 6200]
    data_sources :=
      [{ source_type := .ValidatorNode, source_id := "validator_001", timestamp := 0,
         reliability_score := 95 },
       { source_type := .FullNode, source_id := "fullnode_042", timestamp := 0,
         reliability_score := 87 }]
    public_metric := 6050
    quality_score := quality
    time_window_hours := window }

/-- C8: validation succeeds exactly when the data is non-empty, there are
at least two sources, the quality score is at most 100, the window is in
[1, 24], and every source reliability is at most 100; the five checks run
in source order, failing fast with the first violation's error and no side
effects (the embedding is a pure function); quality 100 and windows 1 and
24 pass, quality 101 and windows 0 and 25 fail. -/
theorem validate_submission_spec :
    (∀ s, ZKProofService.validate_submission s = .ok () ↔
      (s.private_data ≠ [] ∧ 2 ≤ s.data_sources.length ∧ s.quality_score ≤ 100 ∧
        1 ≤ s.time_window_hours ∧ s.time_window_hours ≤ 24 ∧
        ∀ src ∈ s.data_sources, src.reliability_score ≤ 100)) ∧
    (∀ s, s.private_data = [] →
      ZKProofService.validate_submission s = .error "Private data cannot be empty") ∧
    (∀ s, s.private_data ≠ [] → s.data_sources.length < 2 →
      ZKProofService.validate_submission s = .error "At least 2 data sources required") ∧
    (∀ s, s.private_data ≠ [] → 2 ≤ s.data_sources.length → 100 < s.quality_score →
      ZKProofService.validate_submission s = .error "Quality score must be <= 100") ∧
    (∀ s, s.private_data ≠ [] → 2 ≤ s.data_sources.length → s.quality_score ≤ 100 →
      (s.time_window_hours = 0 ∨ 24 < s.time_window_hours) →
      ZKProofService.validate_submission s = .error "Time window must be between 1-24 hours") ∧
    (∀ s, s.private_data ≠ [] → 2 ≤ s.data_sources.length → s.quality_score ≤ 100 →
      1 ≤ s.time_window_hours → s.time_window_hours ≤ 24 →
      (∃ src ∈ s.data_sources, 100 < src.reliability_score) →
      ZKProofService.validate_submission s = .error "Source reliability score must be <= 100") ∧
    ZKProofService.validate_submission (boundarySubmission 100 1) = .ok () ∧
    ZKProofService.validate_submission (boundarySubmission 100 24) = .ok () ∧
    ZKProofService.validate_submission (boundarySubmission 101 1) =
      .error "Quality score must be <= 100" ∧
    ZKProofService.validate_submission (boundarySubmission 92 0) =
      .error "Time window must be between 1-24 hours" ∧
    ZKProofService.validate_submission (boundarySubmission 92 25) =
      .error "Time window must be between 1-24 hours" := by
  refine ⟨?_, ?_, ?_, ?_, ?_, ?_, by decide, by decide, by decide, by decide, by decide⟩
  · intro s
    unfold ZKProofService.validate_submission
    split_ifs with h1 h2 h3 h4 h5 <;> simp_all <;> omega
  · intro s h
    unfold ZKProofService.validate_submission
    rw [if_pos h]
  · intro s h1 h2
    unfold ZKProofService.validate_submission
    rw [if_neg h1, if_pos h2]
  · intro s h1 h2 h3
    unfold ZKProofService.validate_submission
    rw [if_neg h1, if_neg (by omega), if_pos (by omega)]
  · intro s h1 h2 h3 h4
    unfold ZKProofService.validate_submission
    rw [if_neg h1, if_neg (by omega), if_neg (by omega), if_pos (by omega)]
  · intro s h1 h2 h3 h4 h5 h6
    unfold ZKProofService.validate_submission
    rw [if_neg h1, if_neg (by omega), if_neg (by omega), if_neg (by omega),
      if_pos (by simpa using h6)]

/-- Witness for `validate_submission_spec`: its fail-fast clauses applied
at concrete submissions. -/
theorem validate_submission_spec_witness :
    ZKProofService.validate_submission
      { metric_type := "m", private_data := [], data_sources := [], public_metric := 0,
        quality_score := 0, time_window_hours := 0 } =
        .error "Private data cannot be empty" ∧
    ZKProofService.validate_submission (boundarySubmission 101 1) =
      .error "Quality score must be <= 100" :=
  ⟨validate_submission_spec.2.1 _ rfl,
    validate_submission_spec.2.2.2.1 (boundarySubmission 101 1) (by decide) (by decide)
      (by decide)⟩

/-- C10: a trusted caller submitting with a quality score below 70 gets
`DataQualityTooLow` and the contract storage and event log are untouched;
the check runs before proof verification (the result is quantified over
every proof, valid or not). -/
theorem submit_metric_quality_floor :
    ∀ (caller : AccountId) (ts : Nat) (st : AnalyticsState) (mt : MetricType) (v : Nat)
      (proof : ContractZKProof) (q : Nat),
      caller ∈ st.trusted_nodes → q < 70 →
      submitMetric caller ts st mt v proof q = (.error .DataQualityTooLow, st, []) := by
  intro caller ts st mt v proof q htrust hq
  unfold submitMetric
  rw [if_neg (not_not_intro htrust), if_pos hq]

/-- A contract state with one trusted node, used to witness
`submit_metric_quality_floor`. -/
def trustedState : AnalyticsState :=
  { metrics := [], proofs := [], privacy_levels := [],
    trusted_nodes := [List.replicate 32 1], contributors := [], owner := zeroAccount }

/-- Witness for `submit_metric_quality_floor`: a trusted node submitting
quality 69 is rejected with `DataQualityTooLow` and unchanged state, both
with a proof that would verify and one that would not. -/
theorem submit_metric_quality_floor_witness :
    submitMetric (List.replicate 32 1) 5 trustedState .AverageBlockTime 6000
        { proof_value := [1], public_inputs := [6000], verification_key := [2],
          circuit_id := 0 } 69 =
      (.error .DataQualityTooLow, trustedState, []) ∧
    submitMetric (List.replicate 32 1) 5 trustedState .AverageBlockTime 6000
        { proof_value := [], public_inputs := [], verification_key := [],
          circuit_id := 0 } 69 =
      (.error .DataQualityTooLow, trustedState, []) :=
  ⟨submit_metric_quality_floor _ _ _ _ _ _ _ (by decide) (by decide),
    submit_metric_quality_floor _ _ _ _ _ _ _ (by decide) (by decide)⟩

/-- C4 (bug evaluation): submit returns a `Pending` handle, but the
background task runs on `Arc::new(self.clone())` whose `Clone` impl creates
fresh empty maps, so finishing the task updates nothing, and a status query
after the task has finished still observes `Pending` with no proof data —
never the `Completed` state the spec promises. -/
theorem completion_invisible_to_status_query :
    ∀ (now : Nat) (id : String) (st : BackendServiceState),
      (backendGenerateProof now id st).1.status = .Pending ∧
      (backendGenerateProof now id st).2.2.pending_proofs = [] ∧
      (processProofGeneration id (backendGenerateProof now id st).2.2).pending_proofs = [] ∧
      getProofStatus (backendGenerateProof now id st).2.1 id =
        .ok (backendGenerateProof now id st).1 ∧
      (backendGenerateProof now id st).1.status ≠ .Completed ∧
      (backendGenerateProof now id st).1.proof_data = none := by
  intro now id st
  refine ⟨rfl, rfl, rfl, ?_,
    (by decide : ProofGenerationStatus.Pending ≠ ProofGenerationStatus.Completed), rfl⟩
  simp [getProofStatus, backendGenerateProof, List.lookup]

/-- Characterization of `verify_constraints` with the wrapped sums the
source actually computes. -/
lemma verify_constraints_wrapped_iff (c : NetworkMetricCircuit)
    (private_data data_sources : List Nat) (public_metric quality_score : Nat)
    (hpd : private_data ≠ []) :
    c.verify_constraints private_data data_sources public_metric quality_score = true ↔
      (private_data.length ≤ c.max_data_points ∧
       2 ≤ data_sources.length ∧ data_sources.length ≤ c.max_data_sources ∧
       Nat.dist (private_data.sum % 2 ^ 128 / private_data.length) public_metric ≤
         public_metric / 20 ∧
       quality_score ≤ 100 ∧
       quality_score ≤ data_sources.sum % 2 ^ 32 / data_sources.length + 10) := by
  unfold NetworkMetricCircuit.verify_constraints
  split_ifs with h1 h2 h3 h4 h5 h6 <;> simp_all

/-- C2 counterexample: the source sums the readings as `u128`, which wraps.
At readings `[2^127, 2^127]` with claimed aggregate 0, reliabilities
`[50, 50]` and quality 0, the wrapped sum is 0, so the code accepts the
submission — but the claim's characterization (built on the mathematical
average 2^127) requires rejection. -/
theorem verify_constraints_wrap_counterexample :
    smallCircuit.verify_constraints [2 ^ 127, 2 ^ 127] [50, 50] 0 0 = true ∧
    ¬ (([2 ^ 127, 2 ^ 127] : List Nat).length ≤ smallCircuit.max_data_points ∧
       2 ≤ ([50, 50] : List Nat).length ∧
       ([50, 50] : List Nat).length ≤ smallCircuit.max_data_sources ∧
       Nat.dist (([2 ^ 127, 2 ^ 127] : List Nat).sum /
         ([2 ^ 127, 2 ^ 127] : List Nat).length) 0 ≤ 0 / 20 ∧
       (0 : Nat) ≤ 100 ∧
       (0 : Nat) ≤ ([50, 50] : List Nat).sum / ([50, 50] : List Nat).length + 10) := by
  refine ⟨by decide, by decide⟩

/-- C2 amended: for a non-empty reading list, `verify_constraints` returns
`true` exactly when the reading count fits the circuit, the source count is
between 2 and the circuit's source bound, the integer average of the
readings — computed from the sum wrapped as `u128` — is within
`public_metric / 20` of the claimed aggregate, the quality score is at most
100, and the quality score is at most the integer average reliability
(sum wrapped as `u32`) plus 10.  Whenever the sums do not overflow the
original characterization with mathematical averages holds, and the
concrete tolerance examples from the spec check out. -/
theorem verify_constraints_spec :
    (∀ (c : NetworkMetricCircuit) (private_data data_sources : List Nat)
        (public_metric quality_score : Nat), private_data ≠ [] →
      private_data.sum < 2 ^ 128 → data_sources.sum < 2 ^ 32 →
      (c.verify_constraints private_data data_sources public_metric quality_score = true ↔
        (private_data.length ≤ c.max_data_points ∧
         2 ≤ data_sources.length ∧ data_sources.length ≤ c.max_data_sources ∧
         Nat.dist (private_data.sum / private_data.length) public_metric ≤
           public_metric / 20 ∧
         quality_score ≤ 100 ∧
         quality_score ≤ data_sources.sum / data_sources.length + 10))) ∧
    (∀ (c : NetworkMetricCircuit) (private_data data_sources : List Nat)
        (public_metric quality_score : Nat), private_data ≠ [] →
      (c.verify_constraints private_data data_sources public_metric quality_score = true ↔
        (private_data.length ≤ c.max_data_points ∧
         2 ≤ data_sources.length ∧ data_sources.length ≤ c.max_data_sources ∧
         Nat.dist (private_data.sum % 2 ^ 128 / private_data.length) public_metric ≤
           public_metric / 20 ∧
         quality_score ≤ 100 ∧
         quality_score ≤ data_sources.sum % 2 ^ 32 / data_sources.length + 10))) ∧
    Nat.dist (([6000, 6100, 5900, 6200] : List Nat).sum / 4) 6050 ≤ 6050 / 20 ∧
    ¬ Nat.dist (([6000, 6100, 5900, 6200] : List Nat).sum / 4) 6500 ≤ 6500 / 20 ∧
    smallCircuit.verify_constraints [6000, 6100, 5900, 6200] [95, 87] 6050 92 = true ∧
    smallCircuit.verify_constraints [6000, 6100, 5900, 6200] [95, 87] 6500 92 = false := by
  refine ⟨?_,
    fun c pd ds pm q hpd => verify_constraints_wrapped_iff c pd ds pm q hpd,
    by decide, by decide, by decide, by decide⟩
  intro c pd ds pm q hpd h128 h32
  have h := verify_constraints_wrapped_iff c pd ds pm q hpd
  rw [Nat.mod_eq_of_lt h128, Nat.mod_eq_of_lt h32] at h
  exact h

/-- Witness for `verify_constraints_spec`: its no-overflow characterization
applied to the small default circuit on the spec's tolerance example, every
hypothesis discharged concretely. -/
theorem verify_constraints_spec_witness :
    smallCircuit.verify_constraints [6000, 6100, 5900, 6200] [95, 87] 6050 92 = true := by
  have h := verify_constraints_spec.1 smallCircuit [6000, 6100, 5900, 6200] [95, 87] 6050 92
    (by decide) (by decide) (by decide)
  exact h.mpr (by decide)

/-- Rust `Iterator::min_by_key` keeps the first element when all keys are
equal. -/
lemma minByKeyFirst_const {α : Type} (f : α → Nat) (hf : ∀ x y, f x = f y) :
    ∀ (l : List α) (a : α), minByKeyFirst f (a :: l) = some a := by
  intro l
  induction l with
  | nil => intro a; rfl
  | cons b m ih =>
    intro a
    show (match minByKeyFirst f (b :: m) with
      | none => some a
      | some y => if f y < f a then some y else some a) = some a
    rw [ih b]
    simp [hf b a]

/-- Closed form of circuit selection over the default catalog: the three
capacity windows are nested, every candidate has the same estimated cost
(the cost model ignores the circuit's own fields), and `min_by_key` keeps
the first minimal candidate, so the first capable circuit in registration
order wins. -/
lemma select_default_closed (dp s : Nat) :
    CircuitManager.select_optimal_circuit defaultCircuits dp s =
      (if dp ≤ 10 ∧ s ≤ 5 then some smallCircuit
       else if dp ≤ 50 ∧ s ≤ 20 then some mediumCircuit
       else if dp ≤ 200 ∧ s ≤ 100 then some largeCircuit
       else none) := by
  have hconst : ∀ x y : NetworkMetricCircuit,
      (x.estimate_complexity dp s).estimated_generation_time_ms =
        (y.estimate_complexity dp s).estimated_generation_time_ms := fun _ _ => rfl
  unfold CircuitManager.select_optimal_circuit defaultCircuits
  have hsmallT : ∀ h1 : dp ≤ 10, ∀ h2 : s ≤ 5,
      (decide (smallCircuit.max_data_points ≥ dp) &&
        decide (smallCircuit.max_data_sources ≥ s)) = true :=
    fun h1 h2 => by rw [← Bool.decide_and]; exact decide_eq_true ⟨h1, h2⟩
  have hmedT : ∀ h1 : dp ≤ 50, ∀ h2 : s ≤ 20,
      (decide (mediumCircuit.max_data_points ≥ dp) &&
        decide (mediumCircuit.max_data_sources ≥ s)) = true :=
    fun h1 h2 => by rw [← Bool.decide_and]; exact decide_eq_true ⟨h1, h2⟩
  have hlargeT : ∀ h1 : dp ≤ 200, ∀ h2 : s ≤ 100,
      (decide (largeCircuit.max_data_points ≥ dp) &&
        decide (largeCircuit.max_data_sources ≥ s)) = true :=
    fun h1 h2 => by rw [← Bool.decide_and]; exact decide_eq_true ⟨h1, h2⟩
  have hsmallF : ¬ (dp ≤ 10 ∧ s ≤ 5) →
      (decide (smallCircuit.max_data_points ≥ dp) &&
        decide (smallCircuit.max_data_sources ≥ s)) = false :=
    fun h => by rw [← Bool.decide_and]; exact decide_eq_false (fun hh => h ⟨hh.1, hh.2⟩)
  have hmedF : ¬ (dp ≤ 50 ∧ s ≤ 20) →
      (decide (mediumCircuit.max_data_points ≥ dp) &&
        decide (mediumCircuit.max_data_sources ≥ s)) = false :=
    fun h => by rw [← Bool.decide_and]; exact decide_eq_false (fun hh => h ⟨hh.1, hh.2⟩)
  have hlargeF : ¬ (dp ≤ 200 ∧ s ≤ 100) →
      (decide (largeCircuit.max_data_points ≥ dp) &&
        decide (largeCircuit.max_data_sources ≥ s)) = false :=
    fun h => by rw [← Bool.decide_and]; exact decide_eq_false (fun hh => h ⟨hh.1, hh.2⟩)
  by_cases hA : dp ≤ 10 ∧ s ≤ 5
  · rw [if_pos hA]
    rw [@List.filter_cons_of_pos _ _ smallCircuit [mediumCircuit, largeCircuit]
        (hsmallT hA.1 hA.2),
      @List.filter_cons_of_pos _ _ mediumCircuit [largeCircuit] (hmedT (by omega) (by omega)),
      @List.filter_cons_of_pos _ _ largeCircuit [] (hlargeT (by omega) (by omega)),
      List.filter_nil]
    exact minByKeyFirst_const _ hconst _ _
  · rw [if_neg hA]
    by_cases hB : dp ≤ 50 ∧ s ≤ 20
    · rw [if_pos hB]
      rw [List.filter_cons_of_neg (by simp [hsmallF hA]),
        @List.filter_cons_of_pos _ _ mediumCircuit [largeCircuit] (hmedT hB.1 hB.2),
        @List.filter_cons_of_pos _ _ largeCircuit [] (hlargeT (by omega) (by omega)),
        List.filter_nil]
      exact minByKeyFirst_const _ hconst _ _
    · rw [if_neg hB]
      by_cases hC : dp ≤ 200 ∧ s ≤ 100
      · rw [if_pos hC]
        rw [List.filter_cons_of_neg (by simp [hsmallF hA]),
          List.filter_cons_of_neg (by simp [hmedF hB]),
          @List.filter_cons_of_pos _ _ largeCircuit [] (hlargeT hC.1 hC.2),
          List.filter_nil]
        exact minByKeyFirst_const _ hconst _ _
      · rw [if_neg hC]
        rw [List.filter_cons_of_neg (by simp [hsmallF hA]),
          List.filter_cons_of_neg (by simp [hmedF hB]),
          List.filter_cons_of_neg (by simp [hlargeF hC]),
          List.filter_nil]
        rfl

/-- C3: selection over the default catalog returns `none` exactly when no
registered circuit has the capacity; otherwise it returns a capable
registered circuit whose estimated generation time is minimal, with ties
broken by the smallest circuit id; the cost model matches the claimed
formula, and (data_points 5, sources 3) selects circuit id 1. -/
theorem circuit_selection_spec :
    (∀ (c : NetworkMetricCircuit) (dp s : Nat),
      (c.estimate_complexity dp s).estimated_generation_time_ms =
        (50 + 5 * dp + 3 * s + 20) / 1000 + (dp + 2 * s + (dp + s + 10)) / 500) ∧
    (∀ dp s : Nat,
      (CircuitManager.select_optimal_circuit defaultCircuits dp s = none ↔
        ∀ c ∈ defaultCircuits, ¬ (dp ≤ c.max_data_points ∧ s ≤ c.max_data_sources)) ∧
      (∀ c, CircuitManager.select_optimal_circuit defaultCircuits dp s = some c →
        c ∈ defaultCircuits ∧ dp ≤ c.max_data_points ∧ s ≤ c.max_data_sources ∧
        ∀ c' ∈ defaultCircuits, dp ≤ c'.max_data_points → s ≤ c'.max_data_sources →
          (c.estimate_complexity dp s).estimated_generation_time_ms ≤
            (c'.estimate_complexity dp s).estimated_generation_time_ms ∧
          ((c'.estimate_complexity dp s).estimated_generation_time_ms =
            (c.estimate_complexity dp s).estimated_generation_time_ms →
            c.circuit_id ≤ c'.circuit_id))) ∧
    (CircuitManager.select_optimal_circuit defaultCircuits 5 3).map
      (fun c => c.circuit_id) = some 1 := by
  refine ⟨?_, ?_, by decide⟩
  · intro c dp s
    have e1 : 50 + dp * 5 + s * 3 + 20 = 50 + 5 * dp + 3 * s + 20 := by ring
    have e2 : dp + s * 2 + (dp + s + 10) = dp + 2 * s + (dp + s + 10) := by ring
    simp only [NetworkMetricCircuit.estimate_complexity,
      NetworkMetricCircuit.estimate_constraint_count,
      NetworkMetricCircuit.estimate_witness_count, e1, e2]
  · intro dp s
    rw [select_default_closed]
    constructor
    · split_ifs with g1 g2 g3
      · exact iff_of_false (by simp)
          (fun hall => hall smallCircuit (by simp [defaultCircuits]) ⟨g1.1, g1.2⟩)
      · exact iff_of_false (by simp)
          (fun hall => hall mediumCircuit (by simp [defaultCircuits]) ⟨g2.1, g2.2⟩)
      · exact iff_of_false (by simp)
          (fun hall => hall largeCircuit (by simp [defaultCircuits]) ⟨g3.1, g3.2⟩)
      · refine iff_of_true rfl ?_
        intro c hc
        simp only [defaultCircuits, List.mem_cons, List.not_mem_nil, or_false] at hc
        rcases hc with rfl | rfl | rfl
        · exact fun hcap => g1 ⟨hcap.1, hcap.2⟩
        · exact fun hcap => g2 ⟨hcap.1, hcap.2⟩
        · exact fun hcap => g3 ⟨hcap.1, hcap.2⟩
    · intro c hc
      split_ifs at hc with g1 g2 g3
      · cases hc
        refine ⟨by simp [defaultCircuits], g1.1, g1.2, ?_⟩
        intro c' hc' hdp hs
        refine ⟨le_refl _, fun _ => ?_⟩
        simp only [defaultCircuits, List.mem_cons, List.not_mem_nil, or_false] at hc'
        rcases hc' with rfl | rfl | rfl <;> decide
      · cases hc
        refine ⟨by simp [defaultCircuits], g2.1, g2.2, ?_⟩
        intro c' hc' hdp hs
        refine ⟨le_refl _, fun _ => ?_⟩
        simp only [defaultCircuits, List.mem_cons, List.not_mem_nil, or_false] at hc'
        rcases hc' with rfl | rfl | rfl
        · exact absurd (show dp ≤ 10 ∧ s ≤ 5 from ⟨hdp, hs⟩) g1
        · decide
        · decide
      · cases hc
        refine ⟨by simp [defaultCircuits], g3.1, g3.2, ?_⟩
        intro c' hc' hdp hs
        refine ⟨le_refl _, fun _ => ?_⟩
        simp only [defaultCircuits, List.mem_cons, List.not_mem_nil, or_false] at hc'
        rcases hc' with rfl | rfl | rfl
        · exact absurd (show dp ≤ 10 ∧ s ≤ 5 from ⟨hdp, hs⟩) g1
        · exact absurd (show dp ≤ 50 ∧ s ≤ 20 from ⟨hdp, hs⟩) g2
        · decide

/-- Witness for `circuit_selection_spec`: applied at data_points 5,
sources 3, where it returns the small circuit, which is registered,
capable, and of minimal cost. -/
theorem circuit_selection_spec_witness :
    smallCircuit ∈ defaultCircuits ∧ 5 ≤ smallCircuit.max_data_points ∧
      3 ≤ smallCircuit.max_data_sources := by
  have h := (circuit_selection_spec.2.1 5 3).2 smallCircuit (by decide)
  exact ⟨h.1, h.2.1, h.2.2.1⟩

/-- A digest function standing in for hex-encoded SHA-256 in concrete
evaluations (the pipeline's behaviour under scrutiny does not depend on the
digest's value). -/
def constHash : List HashPiece → String := fun _ => "k"

/-- A digest-to-`u32` function standing in for `calculate_circuit_id`'s
SHA-256 truncation in concrete evaluations. -/
def constIdHash : List HashPiece → Nat := fun _ => 0

/-- A concrete backend output used in evaluations. -/
def mockProof : ZKProof :=
  { proof_value := [1, 2, 3], public_inputs := [6500], verification_key := [4, 5],
    circuit_id := 0, created_at := 0 }

/-- A backend that always succeeds with `mockProof`. -/
def mockProver : Prover := fun _ _ _ _ _ _ => .ok mockProof

/-- A submission that passes validation but whose claimed aggregate 6500 is
more than 5% away from the readings' average 6050, so `verify_constraints`
rejects it for every circuit in the default catalog. -/
def offAggregateSubmission : MetricSubmission :=
  { metric_type := "block_time"
    private_data := [6000, 6100, 5900, 6200]
    data_sources :=
      [{ source_type := .ValidatorNode, source_id := "validator_001", timestamp := 0,
         reliability_score := 95 },
       { source_type := .FullNode, source_id := "fullnode_042", timestamp := 0,
         reliability_score := 87 }]
    public_metric := 6500
    quality_score := 92
    time_window_hours := 1 }

/-- C1 counterexample: a cache-miss submission on which every catalog
circuit's `verify_constraints` returns `false` (including the one catalog
selection would pick), yet `generate_metric_proof` does not return an
error: it invokes the proving backend, returns its proof, and inserts it
into the cache.  The generation path never consults the catalog or
`verify_constraints`; it derives the circuit id by hashing. -/
theorem generation_ignores_constraint_check :
    smallCircuit.verify_constraints [6000, 6100, 5900, 6200] [95, 87] 6500 92 = false ∧
    mediumCircuit.verify_constraints [6000, 6100, 5900, 6200] [95, 87] 6500 92 = false ∧
    largeCircuit.verify_constraints [6000, 6100, 5900, 6200] [95, 87] 6500 92 = false ∧
    CircuitManager.select_optimal_circuit defaultCircuits 4 2 = some smallCircuit ∧
    ZKProofService.validate_submission offAggregateSubmission = .ok () ∧
    ([] : List (String × ZKProof)).lookup
      (ZKProofService.generate_cache_key constHash offAggregateSubmission) = none ∧
    ZKProofService.generate_metric_proof constHash constIdHash mockProver 0 7 []
        offAggregateSubmission =
      .ok (mockProof,
        { circuit_type := .NetworkMetric
          generation_time_ms := 7
          verification_time_ms := none
          data_sources_count := 2
          quality_threshold := 92
          data_age := 0 },
        [("k", mockProof)]) := by
  refine ⟨by decide, by decide, by decide, by decide, by decide, by decide, by decide⟩

/-- C1 amended: on a cache miss the service computes a hash-derived circuit
id and hands the submission straight to the proving backend; whenever the
backend succeeds, generation succeeds and caches the result, with no
dependence on the catalog or on `verify_constraints`. -/
theorem generate_metric_proof_on_miss :
    ∀ (hash : List HashPiece → String) (idHash : List HashPiece → Nat) (prover : Prover)
      (now elapsed_ms : Nat) (cache : List (String × ZKProof)) (s : MetricSubmission)
      (p : ZKProof),
      ZKProofService.validate_submission s = .ok () →
      cache.lookup (ZKProofService.generate_cache_key hash s) = none →
      prover s.private_data (s.data_sources.map (fun src => src.reliability_score))
        s.public_metric s.quality_score s.time_window_hours
        (ZKProofService.calculate_circuit_id idHash s) = .ok p →
      ZKProofService.generate_metric_proof hash idHash prover now elapsed_ms cache s =
        .ok (p,
          { circuit_type := .NetworkMetric
            generation_time_ms := elapsed_ms
            verification_time_ms := none
            data_sources_count := s.data_sources.length
            quality_threshold := s.quality_score
            data_age := ZKProofService.calculate_data_age now s.data_sources },
          (ZKProofService.generate_cache_key hash s, p) :: cache) := by
  intro hash idHash prover now elapsed_ms cache s p hv hl hp
  unfold ZKProofService.generate_metric_proof
  simp only [hv, hl, hp]

/-- Witness for `generate_metric_proof_on_miss`, applied to the
off-aggregate submission on an empty cache with the mock backend. -/
theorem generate_metric_proof_on_miss_witness :
    ZKProofService.generate_metric_proof constHash constIdHash mockProver 0 7 []
        offAggregateSubmission =
      .ok (mockProof,
        { circuit_type := .NetworkMetric
          generation_time_ms := 7
          verification_time_ms := none
          data_sources_count := 2
          quality_threshold := 92
          data_age := 0 },
        [("k", mockProof)]) :=
  generate_metric_proof_on_miss constHash constIdHash mockProver 0 7 []
    offAggregateSubmission mockProof (by decide) (by decide) (by decide)

/-- Sources that agree on id and reliability feed the hasher identically,
whatever their types and timestamps. -/
lemma flatMap_hash_pieces_eq :
    ∀ (l₁ l₂ : List DataSource),
      l₁.map (fun src => (src.source_id, src.reliability_score)) =
        l₂.map (fun src => (src.source_id, src.reliability_score)) →
      l₁.flatMap (fun src => [HashPiece.str src.source_id,
          HashPiece.nat src.reliability_score]) =
        l₂.flatMap (fun src => [HashPiece.str src.source_id,
          HashPiece.nat src.reliability_score]) := by
  intro l₁
  induction l₁ with
  | nil => intro l₂ h; cases l₂ <;> simp_all
  | cons a t ih =>
    intro l₂ h
    cases l₂ with
    | nil => simp_all
    | cons b t₂ =>
      simp only [List.map_cons, List.cons.injEq, Prod.mk.injEq] at h
      simp only [List.flatMap_cons, ih t₂ h.2, h.1.1, h.1.2]

/-- C9: the cache key depends only on the hashed fields — metric type, the
readings in order, the aggregate, the quality score, the window, and each
source's id and reliability — so identical submissions always produce the
same key; and a second generation call for the same submission against the
state left by a successful first call returns the very same proof (hence
identical proof bytes) with a reported generation time of zero and the
cache untouched. -/
theorem cache_key_determinism_spec :
    (∀ (hash : List HashPiece → String) (s₁ s₂ : MetricSubmission),
      s₁.metric_type = s₂.metric_type → s₁.private_data = s₂.private_data →
      s₁.public_metric = s₂.public_metric → s₁.quality_score = s₂.quality_score →
      s₁.time_window_hours = s₂.time_window_hours →
      s₁.data_sources.map (fun src => (src.source_id, src.reliability_score)) =
        s₂.data_sources.map (fun src => (src.source_id, src.reliability_score)) →
      ZKProofService.generate_cache_key hash s₁ =
        ZKProofService.generate_cache_key hash s₂) ∧
    (∀ (hash : List HashPiece → String) (idHash : List HashPiece → Nat) (prover : Prover)
      (now₁ elapsed₁ now₂ elapsed₂ : Nat) (cache : List (String × ZKProof))
      (s : MetricSubmission) (p : ZKProof) (m : ProofMetadata)
      (cache' : List (String × ZKProof)),
      ZKProofService.generate_metric_proof hash idHash prover now₁ elapsed₁ cache s =
        .ok (p, m, cache') →
      ZKProofService.generate_metric_proof hash idHash prover now₂ elapsed₂ cache' s =
        .ok (p,
          { circuit_type := .NetworkMetric
            generation_time_ms := 0
            verification_time_ms := none
            data_sources_count := s.data_sources.length
            quality_threshold := s.quality_score
            data_age := ZKProofService.calculate_data_age now₂ s.data_sources },
          cache')) := by
  constructor
  · intro hash s₁ s₂ h1 h2 h3 h4 h5 h6
    unfold ZKProofService.generate_cache_key cacheKeyStream
    rw [h1, h2, h3, h4, h5, flatMap_hash_pieces_eq _ _ h6]
  · intro hash idHash prover now₁ elapsed₁ now₂ elapsed₂ cache s p m cache' h
    unfold ZKProofService.generate_metric_proof at h ⊢
    have hvE : ∃ u, ZKProofService.validate_submission s = .ok u := by
      cases hval : ZKProofService.validate_submission s with
      | ok u => exact ⟨u, rfl⟩
      | error e => rw [hval] at h; simp at h
    obtain ⟨u, hv⟩ := hvE
    cases u
    rw [hv] at h ⊢
    dsimp only at h ⊢
    have hlE : List.lookup (ZKProofService.generate_cache_key hash s) cache = none ∨
        ∃ cp, List.lookup (ZKProofService.generate_cache_key hash s) cache = some cp := by
      cases List.lookup (ZKProofService.generate_cache_key hash s) cache with
      | none => exact Or.inl rfl
      | some cp => exact Or.inr ⟨cp, rfl⟩
    rcases hlE with hl | ⟨cached, hl⟩
    · rw [hl] at h
      dsimp only at h
      have hpE : ∃ pr, prover s.private_data
          (s.data_sources.map (fun src => src.reliability_score)) s.public_metric
          s.quality_score s.time_window_hours
          (ZKProofService.calculate_circuit_id idHash s) = .ok pr := by
        cases hpv : prover s.private_data
            (s.data_sources.map (fun src => src.reliability_score)) s.public_metric
            s.quality_score s.time_window_hours
            (ZKProofService.calculate_circuit_id idHash s) with
        | ok pr => exact ⟨pr, rfl⟩
        | error e => rw [hpv] at h; simp at h
      obtain ⟨pr, hp⟩ := hpE
      rw [hp] at h
      dsimp only at h
      simp only [Except.ok.injEq, Prod.mk.injEq] at h
      obtain ⟨hpp, _, hc⟩ := h
      subst hpp
      subst hc
      rw [List.lookup_cons_self]
    · rw [hl] at h
      dsimp only at h
      simp only [Except.ok.injEq, Prod.mk.injEq] at h
      obtain ⟨hpp, _, hc⟩ := h
      subst hpp
      subst hc
      rw [hl]

/-- Witness for `cache_key_determinism_spec`: two submissions differing
only in source types and timestamps share a key, and a second generation
call after a concrete successful first call returns the same proof with
zero generation time. -/
theorem cache_key_determinism_spec_witness :
    ZKProofService.generate_cache_key constHash
        { offAggregateSubmission with
          data_sources :=
            [{ source_type := .LightNode, source_id := "validator_001", timestamp := 9,
               reliability_score := 95 },
             { source_type := .ExternalOracle, source_id := "fullnode_042", timestamp := 8,
               reliability_score := 87 }] } =
      ZKProofService.generate_cache_key constHash offAggregateSubmission ∧
    ZKProofService.generate_metric_proof constHash constIdHash mockProver 4 9
        [("k", mockProof)] offAggregateSubmission =
      .ok (mockProof,
        { circuit_type := .NetworkMetric
          generation_time_ms := 0
          verification_time_ms := none
          data_sources_count := 2
          quality_threshold := 92
          data_age := 4 },
        [("k", mockProof)]) :=
  ⟨cache_key_determinism_spec.1 constHash _ offAggregateSubmission rfl rfl rfl rfl rfl
      (by decide),
    cache_key_determinism_spec.2 constHash constIdHash mockProver 0 7 4 9 []
      offAggregateSubmission mockProof
      { circuit_type := .NetworkMetric
        generation_time_ms := 7
        verification_time_ms := none
        data_sources_count := 2
        quality_threshold := 92
        data_age := 0 }
      [("k", mockProof)] (by decide)⟩


lemma log2fuel_pow_le : ∀ (f n : Nat), n < 2 ^ f → 1 ≤ n → 2 ^ log2fuel f n ≤ n := by
  intro f
  induction f with
  | zero => intro n h h1; omega
  | succ f ih =>
    intro n h h1
    unfold log2fuel
    by_cases h2 : 2 ≤ n
    · rw [if_pos h2]
      have hd : n / 2 < 2 ^ f := by
        have : 2 ^ (f + 1) = 2 ^ f * 2 := by ring
        omega
      have h1d : 1 ≤ n / 2 := by omega
      have hle := ih (n / 2) hd h1d
      calc 2 ^ (log2fuel f (n / 2) + 1) = 2 ^ log2fuel f (n / 2) * 2 := by ring
        _ ≤ n / 2 * 2 := by omega
        _ ≤ n := by omega
    · rw [if_neg h2]
      simpa using h1

lemma rnF64_le (n : Nat) (h : n < 2 ^ 64) : rnF64 n ≤ n + n / 2 ^ 52 := by
  unfold rnF64
  by_cases h0 : n = 0
  · simp [h0]
  · rw [if_neg h0]
    by_cases h52 : lg64 n ≤ 52
    · rw [if_pos h52]
      omega
    · rw [if_neg h52]
      have h2L : 2 ^ lg64 n ≤ n := log2fuel_pow_le 64 n h (by omega)
      have hq : (if 2 ^ (lg64 n - 52 - 1) < n % 2 ^ (lg64 n - 52) then n / 2 ^ (lg64 n - 52) + 1
          else if n % 2 ^ (lg64 n - 52) < 2 ^ (lg64 n - 52 - 1) then n / 2 ^ (lg64 n - 52)
          else n / 2 ^ (lg64 n - 52) + n / 2 ^ (lg64 n - 52) % 2) ≤ n / 2 ^ (lg64 n - 52) + 1 := by
        split_ifs <;> omega
      have hs2 : 2 ^ (lg64 n - 52) * 2 ^ 52 ≤ n := by
        have : 2 ^ (lg64 n - 52) * 2 ^ 52 = 2 ^ (lg64 n - 52 + 52) := by rw [pow_add]
        rw [this]
        have h52' : lg64 n - 52 + 52 = lg64 n := by omega
        rw [h52']
        exact h2L
      have hsle : 2 ^ (lg64 n - 52) ≤ n / 2 ^ 52 :=
        (Nat.le_div_iff_mul_le (by positivity)).mpr hs2
      calc (if 2 ^ (lg64 n - 52 - 1) < n % 2 ^ (lg64 n - 52) then n / 2 ^ (lg64 n - 52) + 1
          else if n % 2 ^ (lg64 n - 52) < 2 ^ (lg64 n - 52 - 1) then n / 2 ^ (lg64 n - 52)
          else n / 2 ^ (lg64 n - 52) + n / 2 ^ (lg64 n - 52) % 2) * 2 ^ (lg64 n - 52)
          ≤ (n / 2 ^ (lg64 n - 52) + 1) * 2 ^ (lg64 n - 52) :=
            Nat.mul_le_mul_right _ hq
        _ = n / 2 ^ (lg64 n - 52) * 2 ^ (lg64 n - 52) + 2 ^ (lg64 n - 52) := by ring
        _ ≤ n + 2 ^ (lg64 n - 52) := by
            have := Nat.div_mul_le_self n (2 ^ (lg64 n - 52))
            omega
        _ ≤ n + n / 2 ^ 52 := by omega

lemma rnF64_le_of_le (n B : Nat) (hn : n ≤ B) (hB : B < 2 ^ 64) :
    rnF64 n ≤ B + B / 2 ^ 52 := by
  have h1 := rnF64_le n (lt_of_le_of_lt hn hB)
  have h2 : n / 2 ^ 52 ≤ B / 2 ^ 52 := Nat.div_le_div_right hn
  omega

lemma overallScoreNum_lt (c t l s a : Nat) (hc : c ≤ 100) (ht : t ≤ 100)
    (hl : l ≤ 100) (hs : s ≤ 100) (ha : a ≤ 100) :
    overallScoreNum c t l s a < 101 * 2 ^ 55 := by
  unfold overallScoreNum
  have bp1 : rnF64 (c * 2 ^ 53) ≤ 900719925474099400 := by
    have h := rnF64_le_of_le (c * 2 ^ 53) 900719925474099200
      (le_trans (Nat.mul_le_mul_right _ hc) (by norm_num)) (by norm_num)
    calc rnF64 (c * 2 ^ 53) ≤ 900719925474099200 + 900719925474099200 / 2 ^ 52 := h
      _ = 900719925474099400 := by norm_num
  have bp2 : rnF64 (t * w20num) ≤ 720575940379279560 := by
    have h := rnF64_le_of_le (t * w20num) 720575940379279400
      (le_trans (Nat.mul_le_mul_right _ ht) (by norm_num [w20num])) (by norm_num)
    calc rnF64 (t * w20num) ≤ 720575940379279400 + 720575940379279400 / 2 ^ 52 := h
      _ = 720575940379279560 := by norm_num
  have bp3 : rnF64 (l * w20num) ≤ 720575940379279560 := by
    have h := rnF64_le_of_le (l * w20num) 720575940379279400
      (le_trans (Nat.mul_le_mul_right _ hl) (by norm_num [w20num])) (by norm_num)
    calc rnF64 (l * w20num) ≤ 720575940379279400 + 720575940379279400 / 2 ^ 52 := h
      _ = 720575940379279560 := by norm_num
  have bp4 : rnF64 (s * w20num) ≤ 720575940379279560 := by
    have h := rnF64_le_of_le (s * w20num) 720575940379279400
      (le_trans (Nat.mul_le_mul_right _ hs) (by norm_num [w20num])) (by norm_num)
    calc rnF64 (s * w20num) ≤ 720575940379279400 + 720575940379279400 / 2 ^ 52 := h
      _ = 720575940379279560 := by norm_num
  have bp5 : rnF64 (a * w15num) ≤ 540431955284459619 := by
    have h := rnF64_le_of_le (a * w15num) 540431955284459500
      (le_trans (Nat.mul_le_mul_right _ ha) (by norm_num [w15num])) (by norm_num)
    calc rnF64 (a * w15num) ≤ 540431955284459500 + 540431955284459500 / 2 ^ 52 := h
      _ = 540431955284459619 := by norm_num
  have bs1 : rnF64 (rnF64 (c * 2 ^ 53) + rnF64 (t * w20num)) ≤ 1621295865853379320 := by
    have h := rnF64_le_of_le (rnF64 (c * 2 ^ 53) + rnF64 (t * w20num)) 1621295865853378960
      (by omega) (by norm_num)
    calc rnF64 (rnF64 (c * 2 ^ 53) + rnF64 (t * w20num))
        ≤ 1621295865853378960 + 1621295865853378960 / 2 ^ 52 := h
      _ = 1621295865853379320 := by norm_num
  have bs2 : rnF64 (rnF64 (rnF64 (c * 2 ^ 53) + rnF64 (t * w20num)) + rnF64 (l * w20num))
      ≤ 2341871806232659400 := by
    have h := rnF64_le_of_le
      (rnF64 (rnF64 (c * 2 ^ 53) + rnF64 (t * w20num)) + rnF64 (l * w20num))
      2341871806232658880 (by omega) (by norm_num)
    calc rnF64 (rnF64 (rnF64 (c * 2 ^ 53) + rnF64 (t * w20num)) + rnF64 (l * w20num))
        ≤ 2341871806232658880 + 2341871806232658880 / 2 ^ 52 := h
      _ = 2341871806232659400 := by norm_num
  have bs3 : rnF64 (rnF64 (rnF64 (rnF64 (c * 2 ^ 53) + rnF64 (t * w20num)) +
      rnF64 (l * w20num)) + rnF64 (s * w20num)) ≤ 3062447746611939640 := by
    have h := rnF64_le_of_le
      (rnF64 (rnF64 (rnF64 (c * 2 ^ 53) + rnF64 (t * w20num)) + rnF64 (l * w20num)) +
        rnF64 (s * w20num))
      3062447746611938960 (by omega) (by norm_num)
    calc rnF64 (rnF64 (rnF64 (rnF64 (c * 2 ^ 53) + rnF64 (t * w20num)) +
        rnF64 (l * w20num)) + rnF64 (s * w20num))
        ≤ 3062447746611938960 + 3062447746611938960 / 2 ^ 52 := h
      _ = 3062447746611939640 := by norm_num
  have bf : rnF64 (rnF64 (rnF64 (rnF64 (rnF64 (c * 2 ^ 53) + rnF64 (t * w20num)) +
      rnF64 (l * w20num)) + rnF64 (s * w20num)) + rnF64 (a * w15num))
      ≤ 3602879701896400059 := by
    have h := rnF64_le_of_le
      (rnF64 (rnF64 (rnF64 (rnF64 (c * 2 ^ 53) + rnF64 (t * w20num)) +
        rnF64 (l * w20num)) + rnF64 (s * w20num)) + rnF64 (a * w15num))
      3602879701896399259 (by omega) (by norm_num)
    calc rnF64 (rnF64 (rnF64 (rnF64 (rnF64 (c * 2 ^ 53) + rnF64 (t * w20num)) +
        rnF64 (l * w20num)) + rnF64 (s * w20num)) + rnF64 (a * w15num))
        ≤ 3602879701896399259 + 3602879701896399259 / 2 ^ 52 := h
      _ = 3602879701896400059 := by norm_num
  calc rnF64 (rnF64 (rnF64 (rnF64 (rnF64 (c * 2 ^ 53) + rnF64 (t * w20num)) +
      rnF64 (l * w20num)) + rnF64 (s * w20num)) + rnF64 (a * w15num))
      ≤ 3602879701896400059 := bf
    _ < 101 * 2 ^ 55 := by norm_num

lemma overallScore_le_100 (c t l s a : Nat) (hc : c ≤ 100) (ht : t ≤ 100)
    (hl : l ≤ 100) (hs : s ≤ 100) (ha : a ≤ 100) :
    overallScore c t l s a ≤ 100 := by
  unfold overallScore
  have h := overallScoreNum_lt c t l s a hc ht hl hs ha
  have hd : overallScoreNum c t l s a / 2 ^ 55 < 101 :=
    Nat.div_lt_of_lt_mul (by linarith [h])
  omega

/-- C5 counterexample: at component scores (7, 77, 91, 99, 99) the exact
weighted sum is exactly 70 (claimed overall 70, status Warning), but the
code's double-precision evaluation lands just below 70 and the `as u8`
cast truncates to 69, which the code classifies as Critical. -/
theorem health_score_truncation_counterexample :
    overallScore 7 77 91 99 99 = 69 ∧
    (calculateNetworkHealth 0
        { connectivity_score := 7
          throughput_score := 77
          latency_score := 91
          consensus_score := 99
          availability_score := 99 }).overall_score = 69 ∧
    (calculateNetworkHealth 0
        { connectivity_score := 7
          throughput_score := 77
          latency_score := 91
          consensus_score := 99
          availability_score := 99 }).network_status = .Critical ∧
    ((0.25 : ℚ) * 7 + 0.20 * 77 + 0.20 * 91 + 0.20 * 99 + 0.15 * 99 = 70) ∧
    (25 * 7 + 20 * 77 + 20 * 91 + 20 * 99 + 15 * 99) / 100 = 70 ∧
    networkStatusOf 70 = .Warning ∧
    (69 : Nat) ≠ 70 := by
  refine ⟨by decide, by decide, by decide, by norm_num, by norm_num, by decide, by decide⟩

/-- C5 amended: the overall score is the IEEE-754 double-precision
evaluation of the weighted sum truncated by the `as u8` cast (which can be
one below the exact weighted value); for in-range component scores it stays
within 0-100, the status is Healthy on 90-100, Warning on 70-89 and
Critical on 0-69 of that computed score, exactly one warning of matching
severity is emitted for Warning/Critical and none for Healthy; scores
(95, 85, 88, 92, 96) give overall 91, Healthy, and no warnings. -/
theorem health_scoring_spec :
    (∀ (now c t l s a : Nat), c ≤ 100 → t ≤ 100 → l ≤ 100 → s ≤ 100 → a ≤ 100 →
      ((calculateNetworkHealth now
          { connectivity_score := c
            throughput_score := t
            latency_score := l
            consensus_score := s
            availability_score := a }).overall_score = overallScore c t l s a ∧
       overallScore c t l s a ≤ 100 ∧
       ((calculateNetworkHealth now
          { connectivity_score := c
            throughput_score := t
            latency_score := l
            consensus_score := s
            availability_score := a }).network_status = .Healthy ↔
         90 ≤ overallScore c t l s a) ∧
       ((calculateNetworkHealth now
          { connectivity_score := c
            throughput_score := t
            latency_score := l
            consensus_score := s
            availability_score := a }).network_status = .Warning ↔
         70 ≤ overallScore c t l s a ∧ overallScore c t l s a ≤ 89) ∧
       ((calculateNetworkHealth now
          { connectivity_score := c
            throughput_score := t
            latency_score := l
            consensus_score := s
            availability_score := a }).network_status = .Critical ↔
         overallScore c t l s a ≤ 69) ∧
       ((calculateNetworkHealth now
          { connectivity_score := c
            throughput_score := t
            latency_score := l
            consensus_score := s
            availability_score := a }).warnings.map (fun w => w.level) =
         (if overallScore c t l s a ≤ 69 then [WarningLevel.Critical]
          else if overallScore c t l s a ≤ 89 then [WarningLevel.Warning]
          else [])))) ∧
    (∀ now : Nat,
      (calculateNetworkHealth now
        { connectivity_score := 95
          throughput_score := 85
          latency_score := 88
          consensus_score := 92
          availability_score := 96 }).overall_score = 91 ∧
      (calculateNetworkHealth now
        { connectivity_score := 95
          throughput_score := 85
          latency_score := 88
          consensus_score := 92
          availability_score := 96 }).network_status = .Healthy ∧
      (calculateNetworkHealth now
        { connectivity_score := 95
          throughput_score := 85
          latency_score := 88
          consensus_score := 92
          availability_score := 96 }).warnings = []) := by
  constructor
  · intro now c t l s a hc ht hl hs ha
    have h100 := overallScore_le_100 c t l s a hc ht hl hs ha
    refine ⟨rfl, h100, ?_, ?_, ?_, ?_⟩
    · show networkStatusOf (overallScore c t l s a) = .Healthy ↔
        90 ≤ overallScore c t l s a
      unfold networkStatusOf
      split_ifs with g1 g2 g3 <;> simp <;> omega
    · show networkStatusOf (overallScore c t l s a) = .Warning ↔
        70 ≤ overallScore c t l s a ∧ overallScore c t l s a ≤ 89
      unfold networkStatusOf
      split_ifs with g1 g2 g3 <;> simp <;> omega
    · show networkStatusOf (overallScore c t l s a) = .Critical ↔
        overallScore c t l s a ≤ 69
      unfold networkStatusOf
      split_ifs with g1 g2 g3 <;> simp <;> omega
    · show (generateHealthWarnings (networkStatusOf (overallScore c t l s a))
          (overallScore c t l s a) now).map (fun w => w.level) =
        (if overallScore c t l s a ≤ 69 then [WarningLevel.Critical]
         else if overallScore c t l s a ≤ 89 then [WarningLevel.Warning]
         else [])
      rcases Nat.lt_or_ge (overallScore c t l s a) 70 with hcrit | hge70
      · rw [if_pos (show overallScore c t l s a ≤ 69 by omega)]
        have hst : networkStatusOf (overallScore c t l s a) = .Critical := by
          unfold networkStatusOf
          rw [if_neg (by omega), if_neg (by omega), if_pos (by omega)]
        rw [hst]
        rfl
      · rcases Nat.lt_or_ge (overallScore c t l s a) 90 with hwarn | hok
        · rw [if_neg (show ¬ overallScore c t l s a ≤ 69 by omega),
            if_pos (show overallScore c t l s a ≤ 89 by omega)]
          have hst : networkStatusOf (overallScore c t l s a) = .Warning := by
            unfold networkStatusOf
            rw [if_neg (by omega), if_pos (by omega)]
          rw [hst]
          rfl
        · rw [if_neg (show ¬ overallScore c t l s a ≤ 69 by omega),
            if_neg (show ¬ overallScore c t l s a ≤ 89 by omega)]
          have hst : networkStatusOf (overallScore c t l s a) = .Healthy := by
            unfold networkStatusOf
            rw [if_pos (show 90 ≤ overallScore c t l s a ∧
              overallScore c t l s a ≤ 100 from ⟨hok, h100⟩)]
          rw [hst]
          rfl
  · intro now
    have h1 : overallScore 95 85 88 92 96 = 91 := by decide
    have h2 : networkStatusOf 91 = .Healthy := by decide
    refine ⟨h1, ?_, ?_⟩
    · show networkStatusOf (overallScore 95 85 88 92 96) = .Healthy
      rw [h1, h2]
    · show generateHealthWarnings (networkStatusOf (overallScore 95 85 88 92 96))
        (overallScore 95 85 88 92 96) now = []
      rw [h1, h2]
      rfl

/-- Witness for `health_scoring_spec`, applied at scores
(95, 85, 88, 92, 96) with every range hypothesis discharged. -/
theorem health_scoring_spec_witness :
    ((calculateNetworkHealth 0
        { connectivity_score := 95
          throughput_score := 85
          latency_score := 88
          consensus_score := 92
          availability_score := 96 }).network_status = .Healthy ↔
      90 ≤ overallScore 95 85 88 92 96) ∧ overallScore 95 85 88 92 96 ≤ 100 := by
  have h := health_scoring_spec.1 0 95 85 88 92 96 (by decide) (by decide) (by decide)
    (by decide) (by decide)
  exact ⟨h.2.2.1, h.2.1⟩

end PolyVisor
